import Mathlib

/-!
Verification development for the ticket-system WebSocket server
(`websocket-server.js`).  The server keeps two pieces of in-memory state:
`activeUsers : Map socketId -> {userId, username, isAdmin, ticketId}` and
`adminSockets : Set socketId`, plus the transport library's room-membership
sets.  We embed the JavaScript values that flow through the handlers as
`JsVal` (numbers, strings, booleans, null, undefined), and the handlers as
pure functions over an explicit `ServerState` and an explicit database
snapshot `Db`.  Storage failure is injected through a boolean oracle.
-/

/-- JavaScript runtime values as they appear in event payloads and the
registry: numbers (integral, as used for ids), strings, booleans, `null`
and `undefined`. -/
inductive JsVal where
  | vnum : Int → JsVal
  | vstr : String → JsVal
  | vbool : Bool → JsVal
  | vnull : JsVal
  | vundef : JsVal
deriving DecidableEq

/-- JavaScript truthiness: `0`, `""`, `false`, `null`, `undefined` are falsy. -/
def truthy : JsVal → Bool
  | .vnum n => n != 0
  | .vstr s => s ≠ ""
  | .vbool b => b
  | .vnull => false
  | .vundef => false

/-- Decimal digit accumulator for string-to-number coercion. -/
def digitsValAux : List Char → Nat → Option Nat
  | [], acc => some acc
  | c :: rest, acc =>
    if c.isDigit then digitsValAux rest (acc * 10 + (c.toNat - '0'.toNat)) else none

/-- Value of a nonempty all-digit character list. -/
def digitsVal : List Char → Option Nat
  | [] => none
  | l => digitsValAux l 0

/-- Parse a plain decimal integer string (optionally signed), the string
forms in which the client-supplied ids at issue arrive. -/
def strToInt? (s : String) : Option Int :=
  match s.data with
  | '-' :: rest => (digitsVal rest).map (fun n => -(n : Int))
  | l => (digitsVal l).map (fun n => (n : Int))

/-- JavaScript `Number(x)` coercion restricted to the integral values the
server manipulates; `none` plays the role of `NaN` (and `NaN === NaN` is
false, so `numEqB` below returns false on it). -/
def toNumber : JsVal → Option Int
  | .vnum n => some n
  | .vstr s => if s = "" then some 0 else strToInt? s
  | .vbool b => some (if b then 1 else 0)
  | .vnull => some 0
  | .vundef => none

/-- The comparison `Number(a) === Number(b)` used by the owner lookups at
lines 203 and 433 of the source. -/
def numEqB (a b : JsVal) : Bool :=
  match toNumber a, toNumber b with
  | some x, some y => x == y
  | _, _ => false

/-- JavaScript strict equality `===` on `JsVal` (no NaN among our values,
so same-constructor comparison is plain equality). -/
def strictEqB : JsVal → JsVal → Bool
  | .vnum a, .vnum b => a == b
  | .vstr a, .vstr b => a == b
  | .vbool a, .vbool b => a == b
  | .vnull, .vnull => true
  | .vundef, .vundef => true
  | _, _ => false

/-- String interpolation of a value, as in the template literal
`ticket_${ticketId}`. -/
def jsToString : JsVal → String
  | .vnum n => toString n
  | .vstr s => s
  | .vbool b => if b then "true" else "false"
  | .vnull => "null"
  | .vundef => "undefined"

/-- JavaScript `a || b` (returns `b` when `a` is falsy), used for
`text || ''` and `image_url || null` at line 152. -/
def jsOr (v d : JsVal) : JsVal := if truthy v then v else d

/-- One entry of the `activeUsers` map.  `join_system` populates all four
fields; `join_ticket` on an unknown socket creates an entry whose only
populated field is `ticketId` (the others stay `undefined`, mirroring the
JavaScript object `{}` extended with one property). -/
structure UserInfo where
  userId : JsVal
  username : JsVal
  isAdmin : JsVal
  ticketId : JsVal
deriving DecidableEq

/-- The empty JavaScript object `{}` used at line 125 when the socket has
no registry entry yet. -/
def emptyInfo : UserInfo := ⟨.vundef, .vundef, .vundef, .vundef⟩

/-- Association-list embedding of the JavaScript `Map` `activeUsers`
(first binding wins, as a `Map` holds one binding per key). -/
def mapGet : List (String × UserInfo) → String → Option UserInfo
  | [], _ => none
  | (k, v) :: rest, key => if key = k then some v else mapGet rest key

/-- `Map.set`: replace the existing binding in place, or append. -/
def mapSet : List (String × UserInfo) → String → UserInfo → List (String × UserInfo)
  | [], key, val => [(key, val)]
  | (k, v) :: rest, key, val =>
    if key = k then (key, val) :: rest else (k, v) :: mapSet rest key val

/-- `Map.delete`. -/
def mapRemove : List (String × UserInfo) → String → List (String × UserInfo)
  | [], _ => []
  | (k, v) :: rest, key =>
    if key = k then mapRemove rest key else (k, v) :: mapRemove rest key

/-- Boolean membership in a list of socket ids (the `adminSockets` set). -/
def memB : List String → String → Bool
  | [], _ => false
  | x :: rest, s => if s = x then true else memB rest s

/-- `Set.add`. -/
def setAdd (l : List String) (s : String) : List String :=
  if memB l s then l else l ++ [s]

/-- `Set.delete`. -/
def setRemove : List String → String → List String
  | [], _ => []
  | x :: rest, s => if x = s then setRemove rest s else x :: setRemove rest s

/-- Room membership pairs `(roomName, socketId)` maintained by the
transport layer (`socket.join` / `socket.leave`). -/
def roomAdd (rooms : List (String × String)) (r sid : String) : List (String × String) :=
  if rooms.contains (r, sid) then rooms else rooms ++ [(r, sid)]

/-- `socket.leave roomName`. -/
def roomRemove (rooms : List (String × String)) (r sid : String) : List (String × String) :=
  rooms.filter (fun p => p ≠ (r, sid))

/-- On disconnect the transport removes the socket from every room. -/
def roomsLeaveAll (rooms : List (String × String)) (sid : String) : List (String × String) :=
  rooms.filter (fun p => p.2 ≠ sid)

/-- The server's in-memory state: the `activeUsers` registry, the
`adminSockets` set, and the transport's room membership. -/
structure ServerState where
  activeUsers : List (String × UserInfo)
  adminSockets : List String
  rooms : List (String × String)
deriving DecidableEq

/-- State at server start: both structures empty, no rooms. -/
def initState : ServerState := ⟨[], [], []⟩

/-- Boolean room membership of a socket. -/
def roomMemB (st : ServerState) (r sid : String) : Bool :=
  st.rooms.contains (r, sid)

/-- The state-mutating inbound events of the socket layer.  `join_ticket`
carries `userId`/`username`/`isAdmin` in its payload (used only for the
`user_joined` notification and logging, never for the registry beyond
`ticketId`). -/
inductive Event where
  | connect (sid : String)
  | joinSystem (sid : String) (userId username isAdmin : JsVal)
  | joinTicket (sid : String) (ticketId userId username isAdmin : JsVal)
  | leaveTicket (sid : String) (ticketId : JsVal)
  | disconnect (sid : String)

/-- State transition of one inbound event, translated handler by handler
from lines 86-368 of the source:
* `connection` (line 86) only logs - it touches neither map nor set;
* `join_system` (92-113) overwrites the registry entry with
  `isAdmin: Boolean(isAdmin)`, `ticketId: null`, and adds the socket to
  `adminSockets` when `isAdmin` is truthy (it never removes it);
* `join_ticket` (118-137) joins the room and sets `ticketId` on the
  existing entry or on a fresh `{}`;
* `leave_ticket` (330-341) leaves the room only;
* `disconnect` (346-368) removes the registry entry and, only when the
  recorded `isAdmin` is truthy, the `adminSockets` entry. -/
def step (st : ServerState) : Event → ServerState
  | .connect _ => st
  | .joinSystem sid uid uname adm =>
    { st with
      activeUsers := mapSet st.activeUsers sid ⟨uid, uname, .vbool (truthy adm), .vnull⟩,
      adminSockets := if truthy adm then setAdd st.adminSockets sid else st.adminSockets }
  | .joinTicket sid tid _ _ _ =>
    { st with
      activeUsers :=
        mapSet st.activeUsers sid
          { (mapGet st.activeUsers sid).getD emptyInfo with ticketId := tid },
      rooms := roomAdd st.rooms ("ticket_" ++ jsToString tid) sid }
  | .leaveTicket sid tid =>
    { st with rooms := roomRemove st.rooms ("ticket_" ++ jsToString tid) sid }
  | .disconnect sid =>
    match mapGet st.activeUsers sid with
    | none => { st with rooms := roomsLeaveAll st.rooms sid }
    | some u =>
      { st with
        activeUsers := mapRemove st.activeUsers sid,
        adminSockets :=
          if truthy u.isAdmin then setRemove st.adminSockets sid else st.adminSockets,
        rooms := roomsLeaveAll st.rooms sid }

/-- Run a trace of events from the start state. -/
def runEvents (evs : List Event) : ServerState := evs.foldl step initState

/-- The role recorded for a socket, viewed as "is this a registered admin":
`true` exactly when the registry holds an entry whose `isAdmin` field is
truthy. -/
def adminView (st : ServerState) (sid : String) : Bool :=
  match mapGet st.activeUsers sid with
  | some u => truthy u.isAdmin
  | none => false

/-- The AdminSet equivalence: a socket is in `adminSockets` iff it is
registered with a truthy `isAdmin`. -/
def AdminInv (st : ServerState) : Prop :=
  ∀ sid, memB st.adminSockets sid = adminView st sid

/-- An event is demotion-free in a state: it is not a `join_system` with a
falsy `isAdmin` from a socket currently in `adminSockets`. -/
def safeB (st : ServerState) : Event → Bool
  | .joinSystem sid _ _ adm => truthy adm || !memB st.adminSockets sid
  | _ => true

/-- A whole trace is demotion-free from a given state. -/
def safeTraceB : ServerState → List Event → Bool
  | _, [] => true
  | st, e :: rest => safeB st e && safeTraceB (step st e) rest

/-- Where an outbound event is addressed: a single socket (`io.to(socketId)`),
a whole room (`io.to(roomName)`), or a room minus the sender
(`socket.to(roomName)`). -/
inductive Target where
  | sock (sid : String)
  | room (name : String)
  | roomBut (name : String) (sender : String)
deriving DecidableEq

/-- One outbound transport emission: target, event name, payload fields. -/
structure Emit where
  target : Target
  event : String
  payload : List (String × JsVal)
deriving DecidableEq

/-- An observable action of a handler: a storage INSERT attempt (the
`connection.execute` call with its bound parameters) or an emission. -/
inductive SrvAction where
  | dbInsert (vals : List JsVal)
  | send (e : Emit)
deriving DecidableEq

/-- The emissions among a handler's actions. -/
def emitsOf (acts : List SrvAction) : List Emit :=
  acts.filterMap (fun a => match a with | .send e => some e | .dbInsert _ => none)

/-- Whether an emission addressed at `t` reaches socket `sid`, resolved
against the room membership of state `st`. -/
def targetHits (st : ServerState) : Target → String → Bool
  | .sock s, sid => decide (s = sid)
  | .room r, sid => roomMemB st r sid
  | .roomBut r sender, sid => roomMemB st r sid && decide (sid ≠ sender)

/-- How many emissions named `ev` in `emits` reach socket `sid`. -/
def deliveredCount (st : ServerState) (emits : List Emit) (ev : String) (sid : String) : Nat :=
  emits.countP (fun e => if e.event = ev then targetHits st e.target sid else false)

/-- `notifyAdmins` (lines 75-80): one emission per member of `adminSockets`. -/
def notifyAdmins (st : ServerState) (ev : String) (payload : List (String × JsVal)) : List Emit :=
  st.adminSockets.map (fun s => ⟨.sock s, ev, payload⟩)

/-- A row of `ticket_messages` as stored and re-read (`created_at` is
assigned by the storage engine from its clock). -/
structure DbMessage where
  id : Int
  ticket_id : JsVal
  sender : JsVal
  account_id : JsVal
  text : JsVal
  image_url : JsVal
  created_at : Int
deriving DecidableEq

/-- A row of `tickets`. -/
structure DbTicket where
  id : Int
  account_id : Int
  title : String
  status : String
deriving DecidableEq

/-- A row of `account`. -/
structure DbAccount where
  id : Int
  login : String
deriving DecidableEq

/-- A database snapshot: the three tables, the next AUTO_INCREMENT message
id, and the storage clock used for `created_at` / `new Date()`. -/
structure Db where
  messages : List DbMessage
  tickets : List DbTicket
  accounts : List DbAccount
  nextId : Int
  now : Int
deriving DecidableEq

/-- The join `account a ON tm.account_id = a.id`: SQL coerces the stored
(possibly string-typed) account id numerically. -/
def findAccount (accounts : List DbAccount) (v : JsVal) : Option DbAccount :=
  accounts.find? (fun a => numEqB v (.vnum a.id))

/-- `SELECT ... FROM tickets WHERE id = ?` with a client-supplied id,
numerically coerced by SQL. -/
def findTicket (tickets : List DbTicket) (v : JsVal) : Option DbTicket :=
  tickets.find? (fun t => numEqB v (.vnum t.id))

/-- The joined ticket lookup
`SELECT t.*, a.login as username FROM tickets t JOIN account a ON t.account_id = a.id WHERE t.id = ?`
used by the status paths (lines 283-286 and 419-421). -/
def lookupTicketJoined (db : Db) (v : JsVal) : Option (DbTicket × String) :=
  match findTicket db.tickets v with
  | none => none
  | some t =>
    match db.accounts.find? (fun a => decide (a.id = t.account_id)) with
    | none => none
    | some a => some (t, a.login)

/-- Payload of a `send_message` event (absent fields arrive as `undefined`
through destructuring). -/
structure MsgData where
  ticketId : JsVal
  userId : JsVal
  username : JsVal
  text : JsVal
  sender : JsVal
  image_url : JsVal

/-- The `send_message` handler (lines 142-233).  `insertOk` injects the
outcome of the INSERT `connection.execute`; on failure the `catch` emits
`message_error` to the sender only and the database is unchanged.  On
success the row is re-read joined with `account`; an empty join result
makes `messages[0]` `undefined`, so the subsequent field access throws and
the `catch` emits `message_error` (the inserted row remains; the INSERT touches neither
`account` nor `tickets`, so the re-read join and the ticket lookup read
those tables as they were before the insert).  Otherwise:
`new_message` to the room from the re-read row, then `new_user_message`
to every admin socket when `sender === 'user'`, and when
`sender === 'admin'` a ticket lookup followed by `new_admin_message` to
every registry entry with `Number(userId) === Number(ownerId)` and a falsy
`isAdmin`. -/
def sendMessage (st : ServerState) (sid : String) (d : MsgData) (db : Db)
    (insertOk : Bool) : List SrvAction × Db :=
  let insertVals := [d.ticketId, d.sender, d.userId, jsOr d.text (.vstr ""), jsOr d.image_url .vnull]
  let errEmit : SrvAction := .send ⟨.sock sid, "message_error", [("error", .vstr "Failed to send message")]⟩
  match insertOk with
  | true =>
    let mid := db.nextId
    let row : DbMessage :=
      ⟨mid, d.ticketId, d.sender, d.userId, jsOr d.text (.vstr ""), jsOr d.image_url .vnull, db.now⟩
    let db1 : Db := { db with messages := db.messages ++ [row], nextId := mid + 1 }
    match findAccount db.accounts d.userId with
    | none => ([.dbInsert insertVals, errEmit], db1)
    | some acc =>
      let roomName := "ticket_" ++ jsToString d.ticketId
      let bcast : SrvAction := .send ⟨.room roomName, "new_message",
        [("id", .vnum row.id), ("ticket_id", row.ticket_id), ("sender", row.sender),
         ("username", .vstr acc.login), ("text", row.text), ("image_url", row.image_url),
         ("created_at", .vnum row.created_at)]⟩
      let userNotifs : List SrvAction :=
        if strictEqB d.sender (.vstr "user") then
          (notifyAdmins st "new_user_message"
            [("ticketId", d.ticketId), ("username", d.username), ("text", d.text),
             ("messageId", .vnum mid), ("timestamp", .vnum row.created_at)]).map .send
        else []
      let adminNotifs : List SrvAction :=
        if strictEqB d.sender (.vstr "admin") then
          match findTicket db.tickets d.ticketId with
          | none => []
          | some t =>
            ((st.activeUsers.filter
                (fun p => numEqB p.2.userId (.vnum t.account_id) && !truthy p.2.isAdmin)).map
              (fun p => SrvAction.send ⟨.sock p.1, "new_admin_message",
                [("ticketId", d.ticketId), ("username", d.username), ("text", d.text),
                 ("messageId", .vnum mid), ("timestamp", .vnum row.created_at)]⟩))
        else []
      ([.dbInsert insertVals, bcast] ++ userNotifs ++ adminNotifs, db1)
  | false =>
    ([.dbInsert insertVals, errEmit], db)

/-- Payload of a `status_updated` event. -/
structure StatusData where
  ticketId : JsVal
  oldStatus : JsVal
  newStatus : JsVal
  updatedBy : JsVal

/-- The `status_updated` handler (lines 272-325): joined ticket lookup
(nothing on `NotFound`), a room-wide `ticket_status_changed`, then one
`ticket_status_changed` per registry entry with
`user.userId === ticket.account_id && user.ticketId !== ticketId`
(strict equality, no numeric coercion).  The wall-clock timestamp field is
modelled by the clock `db.now`. -/
def statusUpdated (st : ServerState) (d : StatusData) (db : Db) : List Emit :=
  match lookupTicketJoined db d.ticketId with
  | none => []
  | some (t, _) =>
    let roomName := "ticket_" ++ jsToString d.ticketId
    let roomEmit : Emit := ⟨.room roomName, "ticket_status_changed",
      [("ticketId", d.ticketId), ("oldStatus", d.oldStatus), ("newStatus", d.newStatus),
       ("updatedBy", d.updatedBy), ("timestamp", .vnum db.now)]⟩
    let owners := (st.activeUsers.filter
        (fun p => strictEqB p.2.userId (.vnum t.account_id) && !strictEqB p.2.ticketId d.ticketId)).map
      Prod.fst
    roomEmit :: owners.map (fun s => ⟨.sock s, "ticket_status_changed",
      [("ticketId", d.ticketId), ("title", .vstr t.title), ("oldStatus", d.oldStatus),
       ("newStatus", d.newStatus), ("updatedBy", d.updatedBy), ("timestamp", .vnum db.now)]⟩)

/-- Body of a `POST /api/broadcast-status-update` request (absent JSON
fields destructure to `undefined`). -/
structure RestReq where
  ticketId : JsVal
  oldStatus : JsVal
  newStatus : JsVal
  updatedBy : JsVal

/-- Outcome of the REST endpoint: HTTP status, the `success` flag, the
`notified` count when present, and the emissions performed. -/
structure RestResp where
  status : Nat
  success : Bool
  notified : Option Nat
  emits : List Emit
deriving DecidableEq

/-- `POST /api/broadcast-status-update` (lines 407-464): `400` when
`!ticketId || !newStatus` (JavaScript truthiness), `500` when the storage
call fails (`dbOk` oracle), `404` when the joined ticket lookup is empty,
otherwise one `ticket_status_changed` per registry entry with
`Number(userId) === Number(account_id)` and falsy `isAdmin`, and a `200`
response carrying the count. -/
def restBroadcast (st : ServerState) (req : RestReq) (db : Db) (dbOk : Bool) : RestResp :=
  if !truthy req.ticketId || !truthy req.newStatus then ⟨400, false, none, []⟩
  else if !dbOk then ⟨500, false, none, []⟩
  else
    match lookupTicketJoined db req.ticketId with
    | none => ⟨404, false, none, []⟩
    | some (t, _) =>
      let owners := (st.activeUsers.filter
          (fun p => numEqB p.2.userId (.vnum t.account_id) && !truthy p.2.isAdmin)).map
        Prod.fst
      ⟨200, true, some owners.length,
        owners.map (fun s => ⟨.sock s, "ticket_status_changed",
          [("ticketId", req.ticketId), ("title", .vstr t.title), ("oldStatus", req.oldStatus),
           ("newStatus", req.newStatus), ("updatedBy", req.updatedBy), ("timestamp", .vnum db.now)]⟩)⟩

/-- The `/health` endpoint's `activeUsers` field: the size of the registry. -/
def healthActiveUsers (st : ServerState) : Nat := st.activeUsers.length

theorem mapGet_mapSet_self (m : List (String × UserInfo)) (k : String) (v : UserInfo) :
    mapGet (mapSet m k v) k = some v := by
  induction m with
  | nil => simp [mapSet, mapGet]
  | cons a rest ih =>
    by_cases h : k = a.1
    · simp [mapSet, mapGet, h]
    · simp [mapSet, mapGet, h, ih]

theorem mapGet_mapSet_ne (m : List (String × UserInfo)) (k : String) (v : UserInfo)
    (k' : String) (h : k' ≠ k) : mapGet (mapSet m k v) k' = mapGet m k' := by
  induction m with
  | nil => simp [mapSet, mapGet, h]
  | cons a rest ih =>
    by_cases hk : k = a.1
    · subst hk
      simp [mapSet, mapGet, h]
    · by_cases hk' : k' = a.1
      · simp [mapSet, mapGet, hk, hk']
      · simp [mapSet, mapGet, hk, hk', ih]

theorem mapGet_mapRemove_self (m : List (String × UserInfo)) (k : String) :
    mapGet (mapRemove m k) k = none := by
  induction m with
  | nil => simp [mapRemove, mapGet]
  | cons a rest ih =>
    by_cases h : k = a.1
    · subst h
      simp [mapRemove, mapGet, ih]
    · simp [mapRemove, mapGet, h, ih]

theorem mapGet_mapRemove_ne (m : List (String × UserInfo)) (k k' : String) (h : k' ≠ k) :
    mapGet (mapRemove m k) k' = mapGet m k' := by
  induction m with
  | nil => simp [mapRemove, mapGet]
  | cons a rest ih =>
    by_cases hk : k = a.1
    · subst hk
      simp [mapRemove, mapGet, h, ih]
    · by_cases hk' : k' = a.1
      · simp [mapRemove, mapGet, hk, hk']
      · simp [mapRemove, mapGet, hk, hk', ih]

theorem memB_append (l₁ l₂ : List String) (s : String) :
    memB (l₁ ++ l₂) s = (memB l₁ s || memB l₂ s) := by
  induction l₁ with
  | nil => simp [memB]
  | cons a rest ih =>
    by_cases h : s = a
    · simp [memB, h]
    · simp [memB, h, ih]

theorem memB_setAdd_self (l : List String) (s : String) : memB (setAdd l s) s = true := by
  unfold setAdd
  by_cases h : memB l s = true
  · simp [h]
  · simp [h, memB_append, memB]

theorem memB_setAdd_ne (l : List String) (s s' : String) (h : s' ≠ s) :
    memB (setAdd l s) s' = memB l s' := by
  unfold setAdd
  by_cases hm : memB l s = true
  · simp [hm]
  · simp [hm, memB_append, memB, h]

theorem memB_setRemove_self (l : List String) (s : String) :
    memB (setRemove l s) s = false := by
  induction l with
  | nil => simp [setRemove, memB]
  | cons a rest ih =>
    by_cases h : a = s
    · simp [setRemove, h, ih]
    · simp [setRemove, h, memB, Ne.symm h, ih]

theorem memB_setRemove_ne (l : List String) (s s' : String) (h : s' ≠ s) :
    memB (setRemove l s) s' = memB l s' := by
  induction l with
  | nil => simp [setRemove, memB]
  | cons a rest ih =>
    by_cases ha : a = s
    · subst ha
      simp [setRemove, memB, h, ih]
    · by_cases hs' : s' = a
      · simp [setRemove, ha, memB, hs']
      · simp [setRemove, ha, memB, hs', ih]

theorem truthy_vbool (b : Bool) : truthy (.vbool b) = b := rfl

theorem truthy_vundef : truthy .vundef = false := rfl

theorem adminInv_step (st : ServerState) (e : Event) (hinv : AdminInv st)
    (hsafe : safeB st e = true) : AdminInv (step st e) := by
  cases e with
  | connect sid => exact hinv
  | joinSystem sid uid uname adm =>
    intro s
    by_cases hadm : truthy adm = true
    · by_cases hs : s = sid
      · subst hs
        simp [step, hadm, adminView, mapGet_mapSet_self, memB_setAdd_self, truthy_vbool]
      · have := hinv s
        simpa [step, hadm, adminView, mapGet_mapSet_ne _ _ _ _ hs,
          memB_setAdd_ne _ _ _ hs] using this
    · have hnm : memB st.adminSockets sid = false := by
        simp [safeB, hadm] at hsafe
        exact hsafe
      by_cases hs : s = sid
      · subst hs
        simp [step, hadm, adminView, mapGet_mapSet_self, truthy_vbool, hnm]
      · have := hinv s
        simpa [step, hadm, adminView, mapGet_mapSet_ne _ _ _ _ hs] using this
  | joinTicket sid tid uid uname adm =>
    intro s
    by_cases hs : s = sid
    · subst hs
      have := hinv s
      cases hm : mapGet st.activeUsers s with
      | none =>
        simp [adminView, hm] at this
        simp [step, adminView, mapGet_mapSet_self, hm, emptyInfo, truthy_vundef, this]
      | some u =>
        simp [adminView, hm] at this
        simp [step, adminView, mapGet_mapSet_self, hm, this]
    · have := hinv s
      simpa [step, adminView, mapGet_mapSet_ne _ _ _ _ hs] using this
  | leaveTicket sid tid =>
    intro s
    have := hinv s
    simpa [step, adminView] using this
  | disconnect sid =>
    intro s
    cases hm : mapGet st.activeUsers sid with
    | none =>
      have := hinv s
      simpa [step, hm, adminView] using this
    | some u =>
      by_cases hs : s = sid
      · subst hs
        have := hinv s
        simp [adminView, hm] at this
        by_cases hadm : truthy u.isAdmin = true
        · simp [step, hm, hadm, adminView, mapGet_mapRemove_self, memB_setRemove_self]
        · simp [step, hm, hadm, adminView, mapGet_mapRemove_self, this]
      · have := hinv s
        by_cases hadm : truthy u.isAdmin = true
        · simpa [step, hm, hadm, adminView, mapGet_mapRemove_ne _ _ _ hs,
            memB_setRemove_ne _ _ _ hs] using this
        · simpa [step, hm, hadm, adminView, mapGet_mapRemove_ne _ _ _ hs] using this

theorem adminInv_init : AdminInv initState := by
  intro s
  simp [initState, memB, adminView, mapGet]

theorem adminInv_fold (evs : List Event) : ∀ st : ServerState, AdminInv st →
    safeTraceB st evs = true → AdminInv (evs.foldl step st) := by
  induction evs with
  | nil => intro st h _; exact h
  | cons e rest ih =>
    intro st hinv htr
    simp only [safeTraceB, Bool.and_eq_true] at htr
    exact ih (step st e) (adminInv_step st e hinv htr.1) htr.2

theorem countP_key_zero (m : List (String × UserInfo)) (sid : String) (q : UserInfo → Bool)
    (h : sid ∉ m.map Prod.fst) :
    m.countP (fun p => decide (p.1 = sid) && q p.2) = 0 := by
  rw [List.countP_eq_zero]
  intro a ha
  simp only [Bool.and_eq_true, decide_eq_true_eq, not_and]
  intro h1 _
  exact h (List.mem_map.mpr ⟨a, ha, h1⟩)

theorem countP_key (m : List (String × UserInfo)) (sid : String) (q : UserInfo → Bool)
    (h : (m.map Prod.fst).Nodup) :
    m.countP (fun p => decide (p.1 = sid) && q p.2) =
      (match mapGet m sid with
       | some u => if q u = true then 1 else 0
       | none => 0) := by
  induction m with
  | nil => rfl
  | cons a rest ih =>
    rw [List.map_cons, List.nodup_cons] at h
    by_cases hs : sid = a.1
    · subst hs
      rw [List.countP_cons, countP_key_zero rest _ q h.1]
      simp [mapGet]
    · rw [List.countP_cons, ih h.2]
      simp [mapGet, hs, Ne.symm hs]

theorem countP_owner (m : List (String × UserInfo)) (q : UserInfo → Bool) (sid : String)
    (h : (m.map Prod.fst).Nodup) :
    ((m.filter (fun p => q p.2)).map Prod.fst).countP (fun s => decide (s = sid)) =
      (match mapGet m sid with
       | some u => if q u = true then 1 else 0
       | none => 0) := by
  rw [List.countP_map, List.countP_filter]
  exact countP_key m sid q h

theorem emitsOf_cons_send (e : Emit) (l : List SrvAction) :
    emitsOf (.send e :: l) = e :: emitsOf l := rfl

theorem emitsOf_cons_insert (v : List JsVal) (l : List SrvAction) :
    emitsOf (.dbInsert v :: l) = emitsOf l := rfl

theorem emitsOf_append (l₁ l₂ : List SrvAction) :
    emitsOf (l₁ ++ l₂) = emitsOf l₁ ++ emitsOf l₂ := by
  simp [emitsOf, List.filterMap_append]

theorem emitsOf_sends (es : List Emit) : emitsOf (es.map .send) = es := by
  induction es with
  | nil => rfl
  | cons e l ih => simpa [emitsOf, List.filterMap] using ih

theorem deliveredCount_nil (st : ServerState) (ev sid : String) :
    deliveredCount st [] ev sid = 0 := rfl

theorem deliveredCount_append (st : ServerState) (l₁ l₂ : List Emit) (ev sid : String) :
    deliveredCount st (l₁ ++ l₂) ev sid =
      deliveredCount st l₁ ev sid + deliveredCount st l₂ ev sid := by
  simp [deliveredCount, List.countP_append]

theorem deliveredCount_sockMap (st : ServerState) (sids : List String) (ev : String)
    (pl : List (String × JsVal)) (sid : String) :
    deliveredCount st (sids.map (fun s => ⟨.sock s, ev, pl⟩)) ev sid =
      sids.countP (fun s => decide (s = sid)) := by
  unfold deliveredCount
  rw [List.countP_map]
  congr 1
  funext s
  simp [Function.comp, targetHits]

theorem deliveredCount_sockMap_ne (st : ServerState) (sids : List String) (ev ev' : String)
    (pl : List (String × JsVal)) (sid : String) (h : ev ≠ ev') :
    deliveredCount st (sids.map (fun s => ⟨.sock s, ev, pl⟩)) ev' sid = 0 := by
  unfold deliveredCount
  rw [List.countP_map, List.countP_eq_zero]
  intro a _
  simp [targetHits, h]

theorem memB_iff_mem (l : List String) (s : String) : memB l s = true ↔ s ∈ l := by
  induction l with
  | nil => simp [memB]
  | cons a rest ih => by_cases h : s = a <;> simp [memB, h, ih]

/-- C1 (amended): the AdminSet equivalence - a socket is in `adminSockets`
iff it is registered in `activeUsers` with an Admin role - holds in every
state reachable by a trace containing no demoting `join_system` (no
`join_system` with falsy `isAdmin` from a socket currently in
`adminSockets`).  The original claim over all traces is refuted by
`C1_counterexample_demotion`: the `join_system` handler never removes a
socket from `adminSockets`. -/
theorem C1_adminset_equivalence (evs : List Event) (h : safeTraceB initState evs = true)
    (sid : String) :
    memB (runEvents evs).adminSockets sid = adminView (runEvents evs) sid :=
  adminInv_fold evs initState adminInv_init h sid

theorem C1_adminset_equivalence_witness :
    safeTraceB initState
      [.joinSystem "a" (.vnum 1) (.vstr "x") (.vbool true), .disconnect "a"] = true ∧
    memB (runEvents
      [.joinSystem "a" (.vnum 1) (.vstr "x") (.vbool true), .disconnect "a"]).adminSockets "a" =
      adminView (runEvents
        [.joinSystem "a" (.vnum 1) (.vstr "x") (.vbool true), .disconnect "a"]) "a" :=
  ⟨by decide, C1_adminset_equivalence _ (by decide) "a"⟩

/-- C1 counterexample: after `join_system` with `isAdmin:true` followed by
`join_system` with `isAdmin:false` on the same socket, the socket is still
in `adminSockets` while its registered role is not Admin - the claimed
equivalence fails on this reachable state. -/
theorem C1_counterexample_demotion :
    memB (runEvents [.joinSystem "a" (.vnum 1) (.vstr "x") (.vbool true),
      .joinSystem "a" (.vnum 1) (.vstr "x") (.vbool false)]).adminSockets "a" = true ∧
    adminView (runEvents [.joinSystem "a" (.vnum 1) (.vstr "x") (.vbool true),
      .joinSystem "a" (.vnum 1) (.vstr "x") (.vbool false)]) "a" = false := by
  decide

/-- C9 (amended): the `connection` handler creates no registry entry - the
state after a `connect` event is unchanged, so between connect and the
first `join_system` the connection is absent from `activeUsers` (and from
the health endpoint's count); the identity becomes populated only by
`join_system`, which installs all four fields at once. -/
theorem C9_no_registration_on_connect (st : ServerState) (sid : String)
    (uid uname adm : JsVal) :
    step st (.connect sid) = st ∧
    mapGet (step st (.joinSystem sid uid uname adm)).activeUsers sid =
      some ⟨uid, uname, .vbool (truthy adm), .vnull⟩ :=
  ⟨rfl, mapGet_mapSet_self _ _ _⟩

/-- C9 counterexample: right after a `connect` event the connection has no
registry entry at all (no Pending identity is created), and the health
endpoint's `activeUsers` count is still zero. -/
theorem C9_counterexample_connect_absent :
    mapGet (step initState (.connect "a")).activeUsers "a" = none ∧
    healthActiveUsers (step initState (.connect "a")) = 0 := by
  decide

/-- C10: a `join_ticket` from a connection with no registry entry creates an
entry whose only populated field is `ticketId` (userId, username and
isAdmin stay `undefined`), leaves `adminSockets` untouched even when the
payload claims `isAdmin`, and such a connection receives nothing from an
admin broadcast. -/
theorem C10_join_ticket_partial_entry (st : ServerState) (sid : String)
    (tid uid uname adm : JsVal) (h : mapGet st.activeUsers sid = none) :
    mapGet (step st (.joinTicket sid tid uid uname adm)).activeUsers sid =
      some ⟨.vundef, .vundef, .vundef, tid⟩ ∧
    (step st (.joinTicket sid tid uid uname adm)).adminSockets = st.adminSockets ∧
    (memB st.adminSockets sid = false →
      ∀ pl, deliveredCount (step st (.joinTicket sid tid uid uname adm))
        (notifyAdmins (step st (.joinTicket sid tid uid uname adm)) "new_ticket" pl)
        "new_ticket" sid = 0) := by
  refine ⟨?_, rfl, ?_⟩
  · simp [step, h, mapGet_mapSet_self, emptyInfo]
  · intro hmem pl
    rw [notifyAdmins, deliveredCount_sockMap, List.countP_eq_zero]
    intro a ha hdec
    have haeq : a = sid := by simpa using hdec
    have hmem' : sid ∈ st.adminSockets := haeq ▸ ha
    have hb := (memB_iff_mem st.adminSockets sid).mpr hmem'
    rw [hmem] at hb
    exact Bool.false_ne_true hb

theorem C10_join_ticket_partial_entry_witness :
    mapGet initState.activeUsers "c" = none ∧
    mapGet (step initState
      (.joinTicket "c" (.vnum 7) (.vnum 5) (.vstr "u") (.vbool true))).activeUsers "c" =
      some ⟨.vundef, .vundef, .vundef, .vnum 7⟩ :=
  ⟨by decide, (C10_join_ticket_partial_entry initState "c" (.vnum 7) (.vnum 5) (.vstr "u")
    (.vbool true) (by decide)).1⟩

/-- The owner-outside-room condition actually used at line 302: the
connection's recorded `userId` strictly equals the ticket's owner id and
its cached `ticketId` field (not the transport room membership) differs
from the event's ticket id. -/
def ownerOutOfRoomB (st : ServerState) (t : DbTicket) (d : StatusData) (sid : String) : Bool :=
  match mapGet st.activeUsers sid with
  | some u => strictEqB u.userId (.vnum t.account_id) && !strictEqB u.ticketId d.ticketId
  | none => false

theorem statusUpdated_eq_of_found (st : ServerState) (d : StatusData) (db : Db)
    (t : DbTicket) (uname : String)
    (ht : lookupTicketJoined db d.ticketId = some (t, uname)) :
    statusUpdated st d db =
      ⟨.room ("ticket_" ++ jsToString d.ticketId), "ticket_status_changed",
        [("ticketId", d.ticketId), ("oldStatus", d.oldStatus), ("newStatus", d.newStatus),
         ("updatedBy", d.updatedBy), ("timestamp", .vnum db.now)]⟩ ::
      ((st.activeUsers.filter
          (fun p => strictEqB p.2.userId (.vnum t.account_id) && !strictEqB p.2.ticketId d.ticketId)).map
        Prod.fst).map (fun s => ⟨.sock s, "ticket_status_changed",
          [("ticketId", d.ticketId), ("title", .vstr t.title), ("oldStatus", d.oldStatus),
           ("newStatus", d.newStatus), ("updatedBy", d.updatedBy), ("timestamp", .vnum db.now)]⟩) := by
  unfold statusUpdated
  rw [ht]

theorem countP_owner_ifForm (m : List (String × UserInfo)) (q : UserInfo → Bool) (sid : String)
    (h : (m.map Prod.fst).Nodup) :
    ((m.filter (fun p => q p.2)).map Prod.fst).countP (fun s => decide (s = sid)) =
      if (match mapGet m sid with | some u => q u | none => false) = true then 1 else 0 := by
  rw [countP_owner m q sid h]
  cases mapGet m sid <;> simp

theorem deliveredCount_cons (st : ServerState) (e : Emit) (l : List Emit) (ev sid : String) :
    deliveredCount st (e :: l) ev sid =
      deliveredCount st l ev sid +
      (if e.event = ev then (if targetHits st e.target sid then 1 else 0) else 0) := by
  unfold deliveredCount
  rw [List.countP_cons]
  congr 1
  by_cases h : e.event = ev <;> by_cases h2 : targetHits st e.target sid = true <;> simp [h, h2]

/-- A database with ticket 7 owned by account 5 ("bob"); account 1 is
"adminA". -/
def dbTicket7 : Db :=
  ⟨[], [⟨7, 5, "Printer", "open"⟩], [⟨5, "bob"⟩, ⟨1, "adminA"⟩], 1, 100⟩

/-- C3 (amended): on a real-time `status_updated` for a ticket found in
storage, a connection's number of `ticket_status_changed` deliveries is
(membership in room `ticket_T` ? 1 : 0) + (recorded `userId` strictly
equals the owner id and cached `ticketId` field differs from T ? 1 : 0).
The dedup key is the cached `ticketId` field, not actual room membership,
so exactly-once holds only when the two agree: an owner connection that
joined room T and then left via `leave_ticket` (membership gone, cached
field still T) receives zero events - see
`C3_counterexample_owner_left_room` - and an owner connection still in
room T whose cached field points to a later-joined ticket receives two. -/
theorem C3_status_delivery_by_cached_room (st : ServerState) (d : StatusData) (db : Db)
    (t : DbTicket) (uname : String) (sid : String)
    (hkeys : (st.activeUsers.map Prod.fst).Nodup)
    (ht : lookupTicketJoined db d.ticketId = some (t, uname)) :
    deliveredCount st (statusUpdated st d db) "ticket_status_changed" sid =
      (if roomMemB st ("ticket_" ++ jsToString d.ticketId) sid then 1 else 0) +
      (if ownerOutOfRoomB st t d sid then 1 else 0) := by
  rw [statusUpdated_eq_of_found st d db t uname ht, deliveredCount_cons,
    deliveredCount_sockMap,
    countP_owner_ifForm st.activeUsers
      (fun u => strictEqB u.userId (.vnum t.account_id) && !strictEqB u.ticketId d.ticketId)
      sid hkeys]
  simp only [eq_self_iff_true, if_true, targetHits]
  rw [Nat.add_comm]
  unfold ownerOutOfRoomB
  rfl

theorem C3_status_delivery_by_cached_room_witness :
    ((runEvents [.joinSystem "c1" (.vnum 5) (.vstr "bob") (.vbool false),
        .joinTicket "c1" (.vnum 7) (.vnum 5) (.vstr "bob") (.vbool false)]).activeUsers.map
      Prod.fst).Nodup ∧
    lookupTicketJoined dbTicket7 (.vnum 7) = some (⟨7, 5, "Printer", "open"⟩, "bob") ∧
    deliveredCount
      (runEvents [.joinSystem "c1" (.vnum 5) (.vstr "bob") (.vbool false),
        .joinTicket "c1" (.vnum 7) (.vnum 5) (.vstr "bob") (.vbool false)])
      (statusUpdated
        (runEvents [.joinSystem "c1" (.vnum 5) (.vstr "bob") (.vbool false),
          .joinTicket "c1" (.vnum 7) (.vnum 5) (.vstr "bob") (.vbool false)])
        ⟨.vnum 7, .vstr "open", .vstr "closed", .vstr "adm"⟩ dbTicket7)
      "ticket_status_changed" "c1" =
      (if roomMemB
          (runEvents [.joinSystem "c1" (.vnum 5) (.vstr "bob") (.vbool false),
            .joinTicket "c1" (.vnum 7) (.vnum 5) (.vstr "bob") (.vbool false)])
          ("ticket_" ++ jsToString (StatusData.ticketId ⟨.vnum 7, .vstr "open", .vstr "closed", .vstr "adm"⟩))
          "c1" then 1 else 0) +
      (if ownerOutOfRoomB
          (runEvents [.joinSystem "c1" (.vnum 5) (.vstr "bob") (.vbool false),
            .joinTicket "c1" (.vnum 7) (.vnum 5) (.vstr "bob") (.vbool false)])
          ⟨7, 5, "Printer", "open"⟩ ⟨.vnum 7, .vstr "open", .vstr "closed", .vstr "adm"⟩
          "c1" then 1 else 0) :=
  ⟨by decide, by decide,
    C3_status_delivery_by_cached_room _ _ dbTicket7 ⟨7, 5, "Printer", "open"⟩ "bob" "c1"
      (by decide) (by decide)⟩

/-- C3 counterexample: connection "c1" of the owner (account 5) joins
ticket 7's room and then leaves it via `leave_ticket`.  On the next
`status_updated` for ticket 7 it is not a room member, yet the owner
delivery also skips it (the cached `ticketId` still reads 7), so it
receives zero `ticket_status_changed` events instead of the claimed
exactly one. -/
theorem C3_counterexample_owner_left_room :
    roomMemB
      (runEvents [.joinSystem "c1" (.vnum 5) (.vstr "bob") (.vbool false),
        .joinTicket "c1" (.vnum 7) (.vnum 5) (.vstr "bob") (.vbool false),
        .leaveTicket "c1" (.vnum 7)])
      "ticket_7" "c1" = false ∧
    mapGet
      (runEvents [.joinSystem "c1" (.vnum 5) (.vstr "bob") (.vbool false),
        .joinTicket "c1" (.vnum 7) (.vnum 5) (.vstr "bob") (.vbool false),
        .leaveTicket "c1" (.vnum 7)]).activeUsers "c1" =
      some ⟨.vnum 5, .vstr "bob", .vbool false, .vnum 7⟩ ∧
    deliveredCount
      (runEvents [.joinSystem "c1" (.vnum 5) (.vstr "bob") (.vbool false),
        .joinTicket "c1" (.vnum 7) (.vnum 5) (.vstr "bob") (.vbool false),
        .leaveTicket "c1" (.vnum 7)])
      (statusUpdated
        (runEvents [.joinSystem "c1" (.vnum 5) (.vstr "bob") (.vbool false),
          .joinTicket "c1" (.vnum 7) (.vnum 5) (.vstr "bob") (.vbool false),
          .leaveTicket "c1" (.vnum 7)])
        ⟨.vnum 7, .vstr "open", .vstr "closed", .vstr "adm"⟩ dbTicket7)
      "ticket_status_changed" "c1" = 0 := by
  decide

theorem emitsOf_nil : emitsOf [] = [] := rfl

theorem emitsOf_map_send {α : Type} (l : List α) (f : α → Emit) :
    emitsOf (l.map (fun a => .send (f a))) = l.map f := by
  induction l with
  | nil => rfl
  | cons a rest ih => simpa [emitsOf, List.filterMap] using ih

theorem emitsOf_sockPairs (l : List (String × UserInfo)) (ev : String)
    (pl : List (String × JsVal)) :
    emitsOf (l.map (fun p => SrvAction.send ⟨.sock p.1, ev, pl⟩)) =
      l.map (fun p => (⟨.sock p.1, ev, pl⟩ : Emit)) := by
  induction l with
  | nil => rfl
  | cons a rest ih => simpa [emitsOf, List.filterMap] using ih

theorem deliveredCount_sockPairs (st : ServerState) (l : List (String × UserInfo))
    (ev : String) (pl : List (String × JsVal)) (sid : String) :
    deliveredCount st (l.map (fun p => ⟨.sock p.1, ev, pl⟩)) ev sid =
      l.countP (fun p => decide (p.1 = sid)) := by
  unfold deliveredCount
  rw [List.countP_map]
  congr 1
  funext p
  simp [Function.comp, targetHits]

theorem countP_key_ifForm (m : List (String × UserInfo)) (q : UserInfo → Bool) (sid : String)
    (h : (m.map Prod.fst).Nodup) :
    (m.filter (fun p => q p.2)).countP (fun p => decide (p.1 = sid)) =
      if (match mapGet m sid with | some u => q u | none => false) = true then 1 else 0 := by
  rw [List.countP_filter, countP_key m sid q h]
  cases mapGet m sid <;> simp

/-- The owner-connection condition used by the `send_message` admin branch
(line 203) and the REST endpoint (line 433): numeric coercion of the
recorded `userId` against the owner account id, and a falsy `isAdmin`. -/
def ownerEndUserB (st : ServerState) (a : Int) (sid : String) : Bool :=
  match mapGet st.activeUsers sid with
  | some u => numEqB u.userId (.vnum a) && !truthy u.isAdmin
  | none => false

theorem sendMessage_ok_eq (st : ServerState) (sid : String) (d : MsgData) (db : Db)
    (acc : DbAccount) (hacc : findAccount db.accounts d.userId = some acc) :
    sendMessage st sid d db true =
      ([.dbInsert [d.ticketId, d.sender, d.userId, jsOr d.text (.vstr ""), jsOr d.image_url .vnull],
        .send ⟨.room ("ticket_" ++ jsToString d.ticketId), "new_message",
          [("id", .vnum db.nextId), ("ticket_id", d.ticketId), ("sender", d.sender),
           ("username", .vstr acc.login), ("text", jsOr d.text (.vstr "")),
           ("image_url", jsOr d.image_url .vnull), ("created_at", .vnum db.now)]⟩] ++
       (if strictEqB d.sender (.vstr "user") then
          (notifyAdmins st "new_user_message"
            [("ticketId", d.ticketId), ("username", d.username), ("text", d.text),
             ("messageId", .vnum db.nextId), ("timestamp", .vnum db.now)]).map .send
        else []) ++
       (if strictEqB d.sender (.vstr "admin") then
          match findTicket db.tickets d.ticketId with
          | none => []
          | some t =>
            ((st.activeUsers.filter
                (fun p => numEqB p.2.userId (.vnum t.account_id) && !truthy p.2.isAdmin)).map
              (fun p => SrvAction.send ⟨.sock p.1, "new_admin_message",
                [("ticketId", d.ticketId), ("username", d.username), ("text", d.text),
                 ("messageId", .vnum db.nextId), ("timestamp", .vnum db.now)]⟩))
        else []),
       { db with
          messages := db.messages ++
            [⟨db.nextId, d.ticketId, d.sender, d.userId, jsOr d.text (.vstr ""),
              jsOr d.image_url .vnull, db.now⟩],
          nextId := db.nextId + 1 }) := by
  unfold sendMessage
  rw [hacc]

/-- C5: for a `send_message` with `sender === 'admin'` whose insert and
re-read succeed and whose ticket exists (owner account `t.account_id`),
the `new_admin_message` deliveries go to exactly the registered
connections whose `userId` numerically equals the owner id and whose
`isAdmin` is falsy - one delivery each, independent of any room
membership; Admin-role connections of the owner account receive none. -/
theorem C5_admin_message_recipients (st : ServerState) (sid : String) (d : MsgData) (db : Db)
    (acc : DbAccount) (t : DbTicket) (sidq : String)
    (hkeys : (st.activeUsers.map Prod.fst).Nodup)
    (hsender : d.sender = .vstr "admin")
    (hacc : findAccount db.accounts d.userId = some acc)
    (ht : findTicket db.tickets d.ticketId = some t) :
    deliveredCount st (emitsOf (sendMessage st sid d db true).1) "new_admin_message" sidq =
      (if ownerEndUserB st t.account_id sidq then 1 else 0) := by
  rw [sendMessage_ok_eq st sid d db acc hacc, hsender]
  simp only [show strictEqB (JsVal.vstr "admin") (JsVal.vstr "user") = false from rfl,
    show strictEqB (JsVal.vstr "admin") (JsVal.vstr "admin") = true from rfl,
    if_true, if_false, Bool.false_eq_true, ht]
  rw [List.append_nil, emitsOf_append, emitsOf_cons_insert, emitsOf_cons_send, emitsOf_nil,
    emitsOf_sockPairs, List.cons_append, List.nil_append, deliveredCount_cons,
    deliveredCount_sockPairs,
    countP_key_ifForm st.activeUsers
      (fun u => numEqB u.userId (.vnum t.account_id) && !truthy u.isAdmin) sidq hkeys]
  unfold ownerEndUserB
  simp

theorem C5_admin_message_recipients_witness :
    ((runEvents [.joinSystem "c1" (.vnum 5) (.vstr "bob") (.vbool false),
        .joinSystem "adm1" (.vnum 1) (.vstr "adminA") (.vbool true)]).activeUsers.map
      Prod.fst).Nodup ∧
    findAccount dbTicket7.accounts (.vnum 1) = some ⟨1, "adminA"⟩ ∧
    findTicket dbTicket7.tickets (.vnum 7) = some ⟨7, 5, "Printer", "open"⟩ ∧
    deliveredCount
      (runEvents [.joinSystem "c1" (.vnum 5) (.vstr "bob") (.vbool false),
        .joinSystem "adm1" (.vnum 1) (.vstr "adminA") (.vbool true)])
      (emitsOf (sendMessage
        (runEvents [.joinSystem "c1" (.vnum 5) (.vstr "bob") (.vbool false),
          .joinSystem "adm1" (.vnum 1) (.vstr "adminA") (.vbool true)])
        "adm1" ⟨.vnum 7, .vnum 1, .vstr "adminA", .vstr "hi", .vstr "admin", .vundef⟩
        dbTicket7 true).1)
      "new_admin_message" "c1" =
      (if ownerEndUserB
          (runEvents [.joinSystem "c1" (.vnum 5) (.vstr "bob") (.vbool false),
            .joinSystem "adm1" (.vnum 1) (.vstr "adminA") (.vbool true)])
          5 "c1" then 1 else 0) :=
  ⟨by decide, by decide, by decide,
    C5_admin_message_recipients
      (runEvents [.joinSystem "c1" (.vnum 5) (.vstr "bob") (.vbool false),
        .joinSystem "adm1" (.vnum 1) (.vstr "adminA") (.vbool true)])
      "adm1" ⟨.vnum 7, .vnum 1, .vstr "adminA", .vstr "hi", .vstr "admin", .vundef⟩
      dbTicket7 ⟨1, "adminA"⟩ ⟨7, 5, "Printer", "open"⟩ "c1"
      (by decide) rfl (by decide) (by decide)⟩

/-- C4: when the insert and the joined re-read succeed, the `new_message`
room broadcast is built entirely from the re-read row: server-assigned
`id` (`db.nextId`) and `created_at` (the storage clock), the `username`
joined from the `account` table via the stored `account_id`, and the
normalized stored `text`/`image_url`; no payload field carries the
client-supplied `username` (second conjunct: the broadcast is unchanged
under any client `username`), and the inbound event has no timestamp
field at all. -/
theorem C4_broadcast_from_reread (st : ServerState) (sid : String) (d : MsgData) (db : Db)
    (acc : DbAccount) (hacc : findAccount db.accounts d.userId = some acc) :
    (emitsOf (sendMessage st sid d db true).1).head? =
      some ⟨.room ("ticket_" ++ jsToString d.ticketId), "new_message",
        [("id", .vnum db.nextId), ("ticket_id", d.ticketId), ("sender", d.sender),
         ("username", .vstr acc.login), ("text", jsOr d.text (.vstr "")),
         ("image_url", jsOr d.image_url .vnull), ("created_at", .vnum db.now)]⟩ ∧
    ∀ u : JsVal,
      (emitsOf (sendMessage st sid ⟨d.ticketId, d.userId, u, d.text, d.sender, d.image_url⟩
        db true).1).head? =
      (emitsOf (sendMessage st sid d db true).1).head? := by
  constructor
  · rw [sendMessage_ok_eq st sid d db acc hacc]
    simp only [emitsOf_append, emitsOf_cons_insert, emitsOf_cons_send, emitsOf_nil]
    simp
  · intro u
    have hacc2 : findAccount db.accounts
        (MsgData.userId ⟨d.ticketId, d.userId, u, d.text, d.sender, d.image_url⟩) = some acc := hacc
    rw [sendMessage_ok_eq st sid ⟨d.ticketId, d.userId, u, d.text, d.sender, d.image_url⟩
        db acc hacc2,
      sendMessage_ok_eq st sid d db acc hacc]
    simp only [emitsOf_append, emitsOf_cons_insert, emitsOf_cons_send, emitsOf_nil]
    simp

theorem C4_broadcast_from_reread_witness :
    findAccount dbTicket7.accounts (.vnum 5) = some ⟨5, "bob"⟩ ∧
    (emitsOf (sendMessage initState "c1"
      ⟨.vnum 7, .vnum 5, .vstr "spoofed", .vstr "hi", .vstr "user", .vundef⟩
      dbTicket7 true).1).head? =
      some ⟨.room "ticket_7", "new_message",
        [("id", .vnum 1), ("ticket_id", .vnum 7), ("sender", .vstr "user"),
         ("username", .vstr "bob"), ("text", .vstr "hi"), ("image_url", .vnull),
         ("created_at", .vnum 100)]⟩ :=
  ⟨by decide, (C4_broadcast_from_reread initState "c1"
    ⟨.vnum 7, .vnum 5, .vstr "spoofed", .vstr "hi", .vstr "user", .vundef⟩ dbTicket7
    ⟨5, "bob"⟩ (by decide)).1⟩

/-- C6 (amended): the `send_message` pipeline performs no presence
validation of `ticketId` at all - for every inbound event, whatever its
fields, the first action is the storage INSERT attempt carrying the raw
`ticketId`, with `text` normalized by `text || ''` and `image_url` by
`image_url || null` (so normalization of the optional fields holds as
claimed, but an absent `ticketId` is not rejected: it flows straight into
the insert; see `C6_counterexample_missing_ticketId` for a run where an
absent `ticketId` is inserted and broadcast). -/
theorem C6_no_ticket_validation (st : ServerState) (sid : String) (d : MsgData) (db : Db)
    (insertOk : Bool) :
    (sendMessage st sid d db insertOk).1.head? =
      some (.dbInsert [d.ticketId, d.sender, d.userId, jsOr d.text (.vstr ""),
        jsOr d.image_url .vnull]) ∧
    (sendMessage st sid d db true).2.messages =
      db.messages ++ [⟨db.nextId, d.ticketId, d.sender, d.userId, jsOr d.text (.vstr ""),
        jsOr d.image_url .vnull, db.now⟩] := by
  constructor
  · cases insertOk with
    | false => rfl
    | true =>
      cases hacc : findAccount db.accounts d.userId with
      | none => simp [sendMessage, hacc]
      | some acc =>
        rw [sendMessage_ok_eq st sid d db acc hacc]
        rfl
  · cases hacc : findAccount db.accounts d.userId with
    | none => simp [sendMessage, hacc]
    | some acc =>
      rw [sendMessage_ok_eq st sid d db acc hacc]

/-- C6 counterexample: a `send_message` with `ticketId` absent
(`undefined`) is not rejected before side effects: the INSERT is attempted
with the undefined ticket id, the message row is persisted, and the
`new_message` broadcast goes out (to the nonsense room
`ticket_undefined`). -/
theorem C6_counterexample_missing_ticketId :
    (sendMessage initState "s" ⟨.vundef, .vnum 1, .vstr "u", .vstr "hi", .vstr "user", .vundef⟩
      dbTicket7 true).1.head? =
      some (.dbInsert [.vundef, .vstr "user", .vnum 1, .vstr "hi", .vnull]) ∧
    emitsOf (sendMessage initState "s"
      ⟨.vundef, .vnum 1, .vstr "u", .vstr "hi", .vstr "user", .vundef⟩ dbTicket7 true).1 =
      [⟨.room "ticket_undefined", "new_message",
        [("id", .vnum 1), ("ticket_id", .vundef), ("sender", .vstr "user"),
         ("username", .vstr "adminA"), ("text", .vstr "hi"), ("image_url", .vnull),
         ("created_at", .vnum 100)]⟩] ∧
    (sendMessage initState "s" ⟨.vundef, .vnum 1, .vstr "u", .vstr "hi", .vstr "user", .vundef⟩
      dbTicket7 true).2.messages ≠ dbTicket7.messages := by
  decide

/-- C8: when the INSERT fails, the only emission of the whole
`send_message` handler is a single `message_error` to the originating
socket (no `new_message`, `new_user_message` or `new_admin_message` to
anyone), the database is unchanged, and the handler returns normally (it
is a total function - the `catch` converts the storage exception into the
event); on the REST path a storage failure after field validation yields
`500` with `success:false` and no emission. -/
theorem C8_persistence_failure (st : ServerState) (sid : String) (d : MsgData) (db : Db) :
    emitsOf (sendMessage st sid d db false).1 =
      [⟨.sock sid, "message_error", [("error", .vstr "Failed to send message")]⟩] ∧
    (sendMessage st sid d db false).2 = db ∧
    ∀ req : RestReq, truthy req.ticketId = true → truthy req.newStatus = true →
      restBroadcast st req db false = ⟨500, false, none, []⟩ := by
  refine ⟨rfl, rfl, ?_⟩
  intro req h1 h2
  simp [restBroadcast, h1, h2]

theorem C8_persistence_failure_witness :
    truthy (JsVal.vnum 7) = true ∧ truthy (JsVal.vstr "closed") = true ∧
    restBroadcast initState ⟨.vnum 7, .vstr "open", .vstr "closed", .vstr "adm"⟩
      dbTicket7 false = ⟨500, false, none, []⟩ ∧
    emitsOf (sendMessage initState "s"
      ⟨.vnum 7, .vnum 5, .vstr "bob", .vstr "hi", .vstr "user", .vundef⟩ dbTicket7 false).1 =
      [⟨.sock "s", "message_error", [("error", .vstr "Failed to send message")]⟩] :=
  ⟨by decide, by decide,
    (C8_persistence_failure initState "s"
      ⟨.vnum 7, .vnum 5, .vstr "bob", .vstr "hi", .vstr "user", .vundef⟩ dbTicket7).2.2
      ⟨.vnum 7, .vstr "open", .vstr "closed", .vstr "adm"⟩ (by decide) (by decide),
    (C8_persistence_failure initState "s"
      ⟨.vnum 7, .vnum 5, .vstr "bob", .vstr "hi", .vstr "user", .vundef⟩ dbTicket7).1⟩

theorem restBroadcast_found_eq (st : ServerState) (req : RestReq) (db : Db)
    (t : DbTicket) (uname : String)
    (h1 : truthy req.ticketId = true) (h2 : truthy req.newStatus = true)
    (ht : lookupTicketJoined db req.ticketId = some (t, uname)) :
    restBroadcast st req db true =
      ⟨200, true,
        some (((st.activeUsers.filter
          (fun p => numEqB p.2.userId (.vnum t.account_id) && !truthy p.2.isAdmin)).map
            Prod.fst).length),
        ((st.activeUsers.filter
          (fun p => numEqB p.2.userId (.vnum t.account_id) && !truthy p.2.isAdmin)).map
            Prod.fst).map (fun s => ⟨.sock s, "ticket_status_changed",
          [("ticketId", req.ticketId), ("title", .vstr t.title), ("oldStatus", req.oldStatus),
           ("newStatus", req.newStatus), ("updatedBy", req.updatedBy),
           ("timestamp", .vnum db.now)]⟩)⟩ := by
  simp [restBroadcast, h1, h2, ht]

/-- C7 (amended): `POST /api/broadcast-status-update` returns `400` with
`success:false` and dispatches nothing whenever `ticketId` or `newStatus`
is falsy - which covers the missing case but also a present-and-falsy
value such as the empty string, see `C7_counterexample_falsy_present`;
with both truthy, a missing ticket yields `404`/`success:false` with no
dispatch; otherwise the response is `200`/`success:true` with `notified`
equal to the number of registry entries matching the owner (numeric
coercion, non-admin), each such connection receives
`ticket_status_changed` exactly once, every emission is socket-addressed
(no room-wide broadcast), and no other connection receives anything. -/
theorem C7_rest_broadcast_status (st : ServerState) (req : RestReq) (db : Db)
    (hkeys : (st.activeUsers.map Prod.fst).Nodup) :
    (truthy req.ticketId = false ∨ truthy req.newStatus = false →
      restBroadcast st req db true = ⟨400, false, none, []⟩) ∧
    (truthy req.ticketId = true → truthy req.newStatus = true →
      lookupTicketJoined db req.ticketId = none →
      restBroadcast st req db true = ⟨404, false, none, []⟩) ∧
    (∀ t : DbTicket, ∀ uname : String,
      truthy req.ticketId = true → truthy req.newStatus = true →
      lookupTicketJoined db req.ticketId = some (t, uname) →
      (restBroadcast st req db true).status = 200 ∧
      (restBroadcast st req db true).success = true ∧
      (restBroadcast st req db true).notified =
        some ((st.activeUsers.filter
          (fun p => numEqB p.2.userId (.vnum t.account_id) && !truthy p.2.isAdmin)).length) ∧
      (∀ sid, deliveredCount st (restBroadcast st req db true).emits
          "ticket_status_changed" sid =
        (if ownerEndUserB st t.account_id sid then 1 else 0)) ∧
      (∀ e ∈ (restBroadcast st req db true).emits,
        e.event = "ticket_status_changed" ∧ ∃ s, e.target = .sock s)) := by
  refine ⟨?_, ?_, ?_⟩
  · intro h
    rcases h with h | h <;> simp [restBroadcast, h]
  · intro h1 h2 ht
    simp [restBroadcast, h1, h2, ht]
  · intro t uname h1 h2 ht
    rw [restBroadcast_found_eq st req db t uname h1 h2 ht]
    refine ⟨rfl, rfl, by simp, ?_, ?_⟩
    · intro sid
      show deliveredCount st (((st.activeUsers.filter _).map Prod.fst).map _) _ sid = _
      rw [deliveredCount_sockMap,
        countP_owner_ifForm st.activeUsers
          (fun u => numEqB u.userId (.vnum t.account_id) && !truthy u.isAdmin) sid hkeys]
      unfold ownerEndUserB
      rfl
    · intro e he
      simp only [List.mem_map] at he
      obtain ⟨s, _, rfl⟩ := he
      exact ⟨rfl, s, rfl⟩

theorem C7_rest_broadcast_status_witness :
    ((runEvents [.joinSystem "c1" (.vnum 5) (.vstr "bob") (.vbool false)]).activeUsers.map
      Prod.fst).Nodup ∧
    truthy (JsVal.vnum 7) = true ∧ truthy (JsVal.vstr "closed") = true ∧
    lookupTicketJoined dbTicket7 (.vnum 7) = some (⟨7, 5, "Printer", "open"⟩, "bob") ∧
    (restBroadcast (runEvents [.joinSystem "c1" (.vnum 5) (.vstr "bob") (.vbool false)])
      ⟨.vnum 7, .vstr "open", .vstr "closed", .vstr "adm"⟩ dbTicket7 true).status = 200 ∧
    (restBroadcast (runEvents [.joinSystem "c1" (.vnum 5) (.vstr "bob") (.vbool false)])
      ⟨.vnum 7, .vstr "open", .vstr "closed", .vstr "adm"⟩ dbTicket7 true).notified = some 1 :=
  ⟨by decide, by decide, by decide, by decide,
    ((C7_rest_broadcast_status
      (runEvents [.joinSystem "c1" (.vnum 5) (.vstr "bob") (.vbool false)])
      ⟨.vnum 7, .vstr "open", .vstr "closed", .vstr "adm"⟩ dbTicket7 (by decide)).2.2
      ⟨7, 5, "Printer", "open"⟩ "bob" (by decide) (by decide) (by decide)).1,
    ((C7_rest_broadcast_status
      (runEvents [.joinSystem "c1" (.vnum 5) (.vstr "bob") (.vbool false)])
      ⟨.vnum 7, .vstr "open", .vstr "closed", .vstr "adm"⟩ dbTicket7 (by decide)).2.2
      ⟨7, 5, "Printer", "open"⟩ "bob" (by decide) (by decide) (by decide)).2.2.1⟩

/-- C7 counterexample: a request whose `newStatus` is present but the empty
string (so not missing) for an existing ticket is answered `400` with
nothing dispatched, not `200` - the endpoint tests JavaScript truthiness
(`!ticketId || !newStatus`), not field presence. -/
theorem C7_counterexample_falsy_present :
    RestReq.newStatus ⟨.vnum 7, .vstr "open", .vstr "", .vstr "adm"⟩ ≠ .vundef ∧
    (lookupTicketJoined dbTicket7 (.vnum 7)).isSome = true ∧
    restBroadcast initState ⟨.vnum 7, .vstr "open", .vstr "", .vstr "adm"⟩ dbTicket7 true =
      ⟨400, false, none, []⟩ := by
  decide

/-- C2: evaluation at the failing input.  Connection "c1" registered with
the string-form userId `"5"`; ticket 7 is owned by the numeric account id
5.  `Number("5") === Number(5)` holds, so the claim selects "c1" as an
owner connection on all three paths - but the real-time `status_updated`
owner filter (line 302) compares with plain `===`, which is false across
types, so "c1" receives nothing there, while the admin-message path
(line 203) and the REST path (line 433), which do apply `Number()` to both
sides, deliver to it exactly once. -/
theorem C2_status_filter_not_normalized :
    numEqB (.vstr "5") (.vnum 5) = true ∧
    strictEqB (.vstr "5") (.vnum 5) = false ∧
    deliveredCount (runEvents [.joinSystem "c1" (.vstr "5") (.vstr "bob") (.vbool false)])
      (statusUpdated (runEvents [.joinSystem "c1" (.vstr "5") (.vstr "bob") (.vbool false)])
        ⟨.vnum 7, .vstr "open", .vstr "closed", .vstr "adm"⟩ dbTicket7)
      "ticket_status_changed" "c1" = 0 ∧
    deliveredCount (runEvents [.joinSystem "c1" (.vstr "5") (.vstr "bob") (.vbool false)])
      (restBroadcast (runEvents [.joinSystem "c1" (.vstr "5") (.vstr "bob") (.vbool false)])
        ⟨.vnum 7, .vstr "open", .vstr "closed", .vstr "adm"⟩ dbTicket7 true).emits
      "ticket_status_changed" "c1" = 1 ∧
    deliveredCount (runEvents [.joinSystem "c1" (.vstr "5") (.vstr "bob") (.vbool false)])
      (emitsOf (sendMessage (runEvents [.joinSystem "c1" (.vstr "5") (.vstr "bob") (.vbool false)])
        "adm" ⟨.vnum 7, .vnum 1, .vstr "adminA", .vstr "hi", .vstr "admin", .vundef⟩
        dbTicket7 true).1)
      "new_admin_message" "c1" = 1 := by
  decide
